import Mathlib

/-!
# FeatureDetection: face tracking application and self-learning measurement model

Shallow embedding of

* `libTracking/include/tracking/SelfLearningWvmSvmModel.h` (the inline accessors of the
  self-learning measurement model), and
* `faceTrackingApp/FaceTracking.cpp` (construction of the tracker, the trackbar callbacks and
  the option handling of `main`).

Conventions.  A C++ `double` is embedded as a rational number, so arithmetic is exact.  A
`shared_ptr` to an object that several owners share is embedded by keeping the object once in
the application state and letting the holders refer to it by a tag.  A `unique_ptr` that may
be null is an `Option`.
-/

namespace FeatureDetection

/-! ## `SelfLearningWvmSvmModel.h` -/

/-- The data members of `tracking::SelfLearningWvmSvmModel` (lines 133-141 of the header).  The
five collaborators held through `shared_ptr` are kept as handles. -/
structure SelfLearningWvmSvmModel where
  wvm : Nat
  staticSvm : Nat
  dynamicSvm : Nat
  oe : Nat
  svmTraining : Nat
  usingDynamicSvm : Bool
  positiveThreshold : ℚ
  negativeThreshold : ℚ
  selfLearningActive : Bool

namespace SelfLearningWvmSvmModel

/-- Method `isUsingDynamicSvm()`: `return selfLearningActive && usingDynamicSvm;` -/
def isUsingDynamicSvm (m : SelfLearningWvmSvmModel) : Bool :=
  m.selfLearningActive && m.usingDynamicSvm

/-- Method `isSelfLearningActive()`: `return selfLearningActive;` -/
def isSelfLearningActive (m : SelfLearningWvmSvmModel) : Bool :=
  m.selfLearningActive

/-- Method `setSelfLearningActive(bool active)`: `selfLearningActive = active;` -/
def setSelfLearningActive (m : SelfLearningWvmSvmModel) (active : Bool) :
    SelfLearningWvmSvmModel :=
  { m with selfLearningActive := active }

end SelfLearningWvmSvmModel

/-! ## `FaceTracking.cpp`: the objects built by `initTracking` -/

/-- Image filters named in `initTracking`. -/
inductive ImageFilter where
  | grayscale
  | histogramEqualization
  | histEq64
  deriving DecidableEq, Repr

/-- Arguments of `ImagePyramid(minScaleFactor, maxScaleFactor, incrementalScaleFactor)` together
with the filters added by `addImageFilter`. -/
structure ImagePyramid where
  minScaleFactor : ℚ
  maxScaleFactor : ℚ
  incrementalScaleFactor : ℚ
  imageFilters : List ImageFilter

/-- Arguments of `PyramidPatchExtractor(pyramid, width, height)`. -/
structure PyramidPatchExtractor where
  pyramid : ImagePyramid
  patchWidth : Nat
  patchHeight : Nat

/-- A `FilteringFeatureTransformer` around the identity transformer: the filters added to it. -/
structure FilteringFeatureTransformer where
  filters : List ImageFilter

/-- Arguments of `FeatureExtractor(patchExtractor, featureTransformer)`. -/
structure FeatureExtractor where
  patchExtractor : PyramidPatchExtractor
  featureTransformer : FilteringFeatureTransformer

/-- A classifier obtained from `loadMatlab(classifierFilename, thresholdsFilename)`, identified
by the two file names handed to the loader. -/
structure LoadedClassifier where
  classifierFilename : String
  thresholdsFilename : String
  deriving DecidableEq, Repr

/-- Loader `ProbabilisticWvmClassifier::loadMatlab` / `ProbabilisticSvmClassifier::loadMatlab`: the
loader records which files it was given. -/
def loadMatlab (classifierFilename thresholdsFilename : String) : LoadedClassifier :=
  { classifierFilename := classifierFilename, thresholdsFilename := thresholdsFilename }

/-- Arguments of `WvmSvmModel(featureExtractor, wvm, svm)`. -/
structure WvmSvmModel where
  featureExtractor : FeatureExtractor
  wvm : LoadedClassifier
  svm : LoadedClassifier

/-- Modelled from the spec: `SimpleTransitionModel` is declared outside the given sources.  Per
the data model it carries "a single scatter real value controlling propagation noise
magnitude; mutable at runtime". -/
structure SimpleTransitionModel where
  scatter : ℚ

/-- Modelled from the spec: `SimpleTransitionModel::setScatter` is not in the given sources;
"Scatter is exposed as a live-tunable parameter". -/
def SimpleTransitionModel.setScatter (m : SimpleTransitionModel) (scatter : ℚ) :
    SimpleTransitionModel :=
  { m with scatter := scatter }

/-- Modelled from the spec: `ResamplingSampler` is declared outside the given sources.  Per the
data model its parameters are "sample count (int ≥ 0), random-reinitialization rate (real in
[0,1]), and two bounds (minimum/maximum relative scale)".  The constructor call
`ResamplingSampler(count, randomRate, algorithm, transitionModel, minSize, maxSize)` fills the
fields in that order; the low-variance algorithm is a stateless constant and the transition
model is the shared one kept in the application state. -/
structure ResamplingSampler where
  count : Int
  randomRate : ℚ
  minSize : ℚ
  maxSize : ℚ

/-- Modelled from the spec: `ResamplingSampler::setCount` is not in the given sources; invalid
values (negative counts) are "rejected/clamped at the mutator boundary". -/
def ResamplingSampler.setCount (r : ResamplingSampler) (count : Int) : ResamplingSampler :=
  { r with count := max 0 count }

/-- Modelled from the spec: `ResamplingSampler::setRandomRate` is not in the given sources;
"Count and random-rate are live-tunable; rate is clamped to [0,1]". -/
def ResamplingSampler.setRandomRate (r : ResamplingSampler) (randomRate : ℚ) :
    ResamplingSampler :=
  { r with randomRate := max 0 (min 1 randomRate) }

/-- Arguments of `GridSampler(minSize, maxSize, sizeScale, stepSize)`. -/
structure GridSampler where
  minSize : ℚ
  maxSize : ℚ
  sizeScale : ℚ
  stepSize : ℚ

/-- Modelled from the spec: a particle of the population (position, scale, weight and
classification flag); `Sample` is declared outside the given sources. -/
structure Sample where
  x : ℚ
  y : ℚ
  scale : ℚ
  weight : ℚ
  isObject : Bool

/-- Which of the two sampler objects of the application a `shared_ptr<Sampler>` points to. -/
inductive SamplerRef where
  | grid
  | resampling
  deriving DecidableEq, Repr

/-- Position extractors named in `initTracking`. -/
inductive PositionExtractor where
  | weightedMean
  | filtering (inner : PositionExtractor)
  deriving DecidableEq, Repr

/-- Modelled from the spec: `CondensationTracker` is declared outside the given sources.  The
engine holds its active sampler through "a single mutable reference" and owns the population
retained from the previous frame (empty while uninitialized).  The measurement model, shared
with the application, is kept in the application state. -/
structure CondensationTracker where
  sampler : SamplerRef
  extractor : PositionExtractor
  samples : List Sample

/-- Modelled from the spec: the constructor `CondensationTracker(sampler, measurementModel,
extractor)`; the sampler given at construction is the active one and there is no prior
population. -/
def CondensationTracker.new (sampler : SamplerRef) (extractor : PositionExtractor) :
    CondensationTracker :=
  { sampler := sampler, extractor := extractor, samples := [] }

/-- Modelled from the spec: `CondensationTracker::getSampler`, the active sampler. -/
def CondensationTracker.getSampler (c : CondensationTracker) : SamplerRef :=
  c.sampler

/-- Modelled from the spec: `CondensationTracker::setSampler`; the engine "may swap its active
Sampler between Grid and Resampling without losing the persisted Population". -/
def CondensationTracker.setSampler (c : CondensationTracker) (sampler : SamplerRef) :
    CondensationTracker :=
  { c with sampler := sampler }

/-! ## `FaceTracking.cpp`: the application object -/

/-- Image sources created by `main`. -/
inductive ImageSource where
  | videoDevice (deviceId : Int)
  | kinect (kinectId : Int)
  | videoFile (filename : String)
  | directory (directory : String)
  deriving DecidableEq, Repr

/-- Arguments of `VideoImageSink(outputFile, outputFps)`. -/
structure VideoImageSink where
  outputFile : String
  outputFps : Int
  deriving DecidableEq, Repr

/-- The members set by the initializer list of the constructor of `FaceTracking`. -/
structure Members where
  svmConfigFile : String
  negativesFile : String
  imageSource : Option ImageSource
  imageSink : Option VideoImageSink

/-- The members assigned by `initTracking`. -/
structure TrackingSetup where
  measurementModel : WvmSvmModel
  transitionModel : SimpleTransitionModel
  resamplingSampler : ResamplingSampler
  gridSampler : GridSampler
  tracker : CondensationTracker

/-- The state of a `FaceTracking` object once constructed.  (`running` and `paused` belong to
the frame loop `run`, which is not part of this development.) -/
structure FaceTracking where
  svmConfigFile : String
  negativesFile : String
  imageSource : Option ImageSource
  imageSink : Option VideoImageSink
  measurementModel : WvmSvmModel
  transitionModel : SimpleTransitionModel
  resamplingSampler : ResamplingSampler
  gridSampler : GridSampler
  tracker : CondensationTracker
  drawSamples : Bool

/-- The local `svmConfigFile1` of `initTracking` (line 76). -/
def svmConfigFile1 : String :=
  "/home/poschmann/projects/ffd/config/fdetection/WRVM/fd_web/fnf-hq64-wvm_big-outnew02-hq64SVM/fd_hq64-fnf_wvm_r0.04_c1_o8x8_n14l20t10_hcthr0.72-0.27,0.36-0.14--With-outnew02-HQ64SVM.mat"

/-- The local `svmConfigFile2` of `initTracking` (line 77). -/
def svmConfigFile2 : String :=
  "/home/poschmann/projects/ffd/config/fdetection/WRVM/fd_web/fnf-hq64-wvm_big-outnew02-hq64SVM/fd_hq64-fnf_wvm_r0.04_c1_o8x8_n14l20t10_hcthr0.72-0.27,0.36-0.14--ts107742-hq64_thres_0.005--with-outnew02HQ64SVM.mat"

/-- Method `FaceTracking::initTracking()` (lines 67-93).  It runs on the object whose initializer-list
members are `self`; the body reads none of them. -/
def initTracking (_self : Members) : TrackingSetup :=
  -- create measurement model
  let pyramid : ImagePyramid :=
    { minScaleFactor := 20 / 480, maxScaleFactor := 20 / 80, incrementalScaleFactor := 85 / 100,
      imageFilters := [ImageFilter.grayscale] }
  let patchExtractor : PyramidPatchExtractor :=
    { pyramid := pyramid, patchWidth := 20, patchHeight := 20 }
  let featureTransformer : FilteringFeatureTransformer := { filters := [ImageFilter.histEq64] }
  let featureExtractor : FeatureExtractor :=
    { patchExtractor := patchExtractor, featureTransformer := featureTransformer }
  let wvm := loadMatlab svmConfigFile1 svmConfigFile2
  let svm := loadMatlab svmConfigFile1 svmConfigFile2
  -- create tracker
  let count : Int := 800
  let randomRate : ℚ := 35 / 100
  { measurementModel := { featureExtractor := featureExtractor, wvm := wvm, svm := svm },
    transitionModel := { scatter := 2 / 10 },
    resamplingSampler :=
      { count := count, randomRate := randomRate, minSize := 1666 / 10000, maxSize := 8 / 10 },
    gridSampler :=
      { minSize := 1666 / 10000, maxSize := 8 / 10, sizeScale := 1 / (85 / 100),
        stepSize := 1 / 10 },
    tracker :=
      CondensationTracker.new SamplerRef.resampling
        (PositionExtractor.filtering PositionExtractor.weightedMean) }

/-! ## `FaceTracking.cpp`: trackbar callbacks -/

/-- Callback `FaceTracking::samplerChanged(int state, void* userdata)` (lines 117-123). -/
def samplerChanged (state : Int) (tracking : FaceTracking) : FaceTracking :=
  if state = 0 then
    { tracking with tracker := tracking.tracker.setSampler SamplerRef.grid }
  else
    { tracking with tracker := tracking.tracker.setSampler SamplerRef.resampling }

/-- Callback `FaceTracking::sampleCountChanged` (lines 125-128). -/
def sampleCountChanged (state : Int) (tracking : FaceTracking) : FaceTracking :=
  { tracking with resamplingSampler := tracking.resamplingSampler.setCount state }

/-- Callback `FaceTracking::randomRateChanged` (lines 130-133): `setRandomRate(0.01 * state)`. -/
def randomRateChanged (state : Int) (tracking : FaceTracking) : FaceTracking :=
  { tracking with
    resamplingSampler := tracking.resamplingSampler.setRandomRate ((1 / 100 : ℚ) * state) }

/-- Callback `FaceTracking::scatterChanged` (lines 135-138): `setScatter(0.01 * state)`. -/
def scatterChanged (state : Int) (tracking : FaceTracking) : FaceTracking :=
  { tracking with transitionModel := tracking.transitionModel.setScatter ((1 / 100 : ℚ) * state) }

/-- Callback `FaceTracking::drawSamplesChanged` (lines 140-143): `drawSamples = (state == 1)`. -/
def drawSamplesChanged (state : Int) (tracking : FaceTracking) : FaceTracking :=
  { tracking with drawSamples := decide (state = 1) }

/-! ## `FaceTracking.cpp`: `initGui` and the constructor -/

/-- Conversion of a `double` to `int` in C++: the fractional part is discarded. -/
def truncToInt (q : ℚ) : Int :=
  Int.tdiv q.num q.den

/-- Function `cv::setTrackbarPos` (OpenCV, an external collaborator): it moves the slider to
`pos`.  Whether the toolkit then calls the callback registered by `cv::createTrackbar` with
that position depends on the window backend, so this is the parameter `fires`.  (Every
position that `initGui` sets lies within the range of its trackbar.) -/
def setTrackbarPos (fires : Bool) (onChange : Int → FaceTracking → FaceTracking) (pos : Int)
    (tracking : FaceTracking) : FaceTracking :=
  if fires then onChange pos tracking else tracking

/-- Method `FaceTracking::initGui()` (lines 95-115), run on the object whose other members are `self`
and `setup`. -/
def initGui (fires : Bool) (self : Members) (setup : TrackingSetup) : FaceTracking :=
  let t : FaceTracking :=
    { svmConfigFile := self.svmConfigFile, negativesFile := self.negativesFile,
      imageSource := self.imageSource, imageSink := self.imageSink,
      measurementModel := setup.measurementModel, transitionModel := setup.transitionModel,
      resamplingSampler := setup.resamplingSampler, gridSampler := setup.gridSampler,
      tracker := setup.tracker,
      drawSamples := true }
  let t := setTrackbarPos fires samplerChanged
    (if t.tracker.getSampler = SamplerRef.grid then 0 else 1) t
  let t := setTrackbarPos fires sampleCountChanged t.resamplingSampler.count t
  let t := setTrackbarPos fires randomRateChanged
    (truncToInt (100 * t.resamplingSampler.randomRate)) t
  let t := setTrackbarPos fires scatterChanged (truncToInt (100 * t.transitionModel.scatter)) t
  let t := setTrackbarPos fires drawSamplesChanged (if t.drawSamples then 1 else 0) t
  t

/-- The constructor `FaceTracking::FaceTracking(imageSource, imageSink, svmConfigFile,
negativesFile)` (lines 55-63): initializer list, then `initTracking()`, then `initGui()`. -/
def FaceTracking.new (fires : Bool) (imageSource : Option ImageSource)
    (imageSink : Option VideoImageSink) (svmConfigFile negativesFile : String) : FaceTracking :=
  let self : Members :=
    { svmConfigFile := svmConfigFile, negativesFile := negativesFile,
      imageSource := imageSource, imageSink := imageSink }
  initGui fires self (initTracking self)

/-! ## `FaceTracking.cpp`: `main` -/

/-- The outcome of a successful `po::parse_command_line` / `po::notify` (lines 238-255): for
each option without a default whether it was given and with which value, and for each option
with a default its value. -/
structure Options where
  help : Bool
  verboseText : Int
  verboseImages : Int
  filename : Option String
  directory : Option String
  device : Option Int
  kinect : Option Int
  config : String
  nonfaces : String
  output : String
  outputFps : Int

/-- The options of an empty command line: the `default_value`s of lines 241-250. -/
def defaultOptions : Options :=
  { help := false, verboseText := 0, verboseImages := 0, filename := none, directory := none,
    device := none, kinect := none, config := "fd_config_fft_fd.mat",
    nonfaces := "nonfaces_1000", output := "", outputFps := -1 }

/-- Flag `useFile`: set when `vm.count("filename")` (line 262). -/
def useFile (o : Options) : Bool := o.filename.isSome

/-- Flag `useDirectory`: set when `vm.count("directory")` (line 264). -/
def useDirectory (o : Options) : Bool := o.directory.isSome

/-- Flag `useCamera`: set when `vm.count("device")` (line 266). -/
def useCamera (o : Options) : Bool := o.device.isSome

/-- Flag `useKinect`: set when `vm.count("kinect")` (line 268). -/
def useKinect (o : Options) : Bool := o.kinect.isSome

/-- The counter `inputsSpecified` of `main` (lines 276-284). -/
def inputsSpecified (o : Options) : Nat :=
  let n := 0
  let n := if useCamera o then n + 1 else n
  let n := if useKinect o then n + 1 else n
  let n := if useFile o then n + 1 else n
  let n := if useDirectory o then n + 1 else n
  n

/-- Lines 294-302 of `main`: the image source, chosen by the first flag that is set. -/
def createImageSource (o : Options) : Option ImageSource :=
  match o.device, o.kinect, o.filename, o.directory with
  | some deviceId, _, _, _ => some (ImageSource.videoDevice deviceId)
  | none, some kinectId, _, _ => some (ImageSource.kinect kinectId)
  | none, none, some filename, _ => some (ImageSource.videoFile filename)
  | none, none, none, some directory => some (ImageSource.directory directory)
  | none, none, none, none => none

/-- How a run of `main` ends. -/
inductive MainOutcome where
  -- parsing threw; `e.what()` is printed and `main` returns -1 (lines 271-274)
  | parseError (what : String)
  -- the option `help` was given; the usage is printed and `main` returns 0 (lines 257-261)
  | helpShown
  -- the input check failed; `main` returns -1 (lines 285-288)
  | inputUsage
  -- an output file without a frame rate; `main` returns -1 (lines 306-309); the image source
  -- has been created by then
  | outputFpsUsage (imageSource : Option ImageSource)
  -- the `FaceTracking` object was constructed and `run` called (lines 313-315)
  | tracked (app : FaceTracking)

/-- The value returned by `main`. -/
def MainOutcome.exitCode : MainOutcome → Int
  | MainOutcome.parseError _ => -1
  | MainOutcome.helpShown => 0
  | MainOutcome.inputUsage => -1
  | MainOutcome.outputFpsUsage _ => -1
  | MainOutcome.tracked _ => 0

/-- The image source that exists when `main` ends, if one was created. -/
def MainOutcome.imageSource : MainOutcome → Option ImageSource
  | MainOutcome.outputFpsUsage src => src
  | MainOutcome.tracked app => app.imageSource
  | _ => none

/-- The `FaceTracking` object constructed by `main`, if any. -/
def MainOutcome.app : MainOutcome → Option FaceTracking
  | MainOutcome.tracked app => some app
  | _ => none

/-- Function `main` (lines 226-316) from the result of option parsing on.  `fires` is the behaviour of the
window toolkit, see `setTrackbarPos`. -/
def main (fires : Bool) (parsed : Except String Options) : MainOutcome :=
  match parsed with
  | Except.error what => MainOutcome.parseError what
  | Except.ok o =>
    if o.help then MainOutcome.helpShown
    else if inputsSpecified o ≠ 1 then MainOutcome.inputUsage
    else
      let imageSource := createImageSource o
      if o.output ≠ "" then
        if o.outputFps < 0 then MainOutcome.outputFpsUsage imageSource
        else
          let imageSink : VideoImageSink := { outputFile := o.output, outputFps := o.outputFps }
          MainOutcome.tracked
            (FaceTracking.new fires imageSource (some imageSink) o.config o.nonfaces)
      else
        MainOutcome.tracked (FaceTracking.new fires imageSource none o.config o.nonfaces)

/-- The number of input options (device, Kinect, file, directory) present on the command line. -/
def givenInputs (o : Options) : Nat :=
  ([o.device.isSome, o.kinect.isSome, o.filename.isSome, o.directory.isSome].filter id).length

/-! ## Auxiliary facts -/

/-- The position given to the trackbar "Scatter * 100" for the scatter 0.2. -/
theorem truncToInt_scatter : truncToInt (100 * (2 / 10)) = 20 := by
  have h : (100 * (2 / 10) : ℚ) = 20 := by norm_num
  rw [h]
  simp [truncToInt]

/-- The position given to the trackbar "Random Rate" for the random rate 0.35. -/
theorem truncToInt_randomRate : truncToInt (100 * (35 / 100)) = 35 := by
  have h : (100 * (35 / 100) : ℚ) = 35 := by norm_num
  rw [h]
  simp [truncToInt]

/-- The constructed object: the initializer-list members, the members assigned by
`initTracking`, and `drawSamples = true`.  The trackbar positions set by `initGui` are the
current values, so the callbacks, when the toolkit fires them, leave every member as it is. -/
theorem FaceTracking.new_eq (fires : Bool) (src : Option ImageSource)
    (sink : Option VideoImageSink) (cfg neg : String) :
    FaceTracking.new fires src sink cfg neg =
      { svmConfigFile := cfg, negativesFile := neg, imageSource := src, imageSink := sink,
        measurementModel := (initTracking ⟨cfg, neg, src, sink⟩).measurementModel,
        transitionModel := (initTracking ⟨cfg, neg, src, sink⟩).transitionModel,
        resamplingSampler := (initTracking ⟨cfg, neg, src, sink⟩).resamplingSampler,
        gridSampler := (initTracking ⟨cfg, neg, src, sink⟩).gridSampler,
        tracker := (initTracking ⟨cfg, neg, src, sink⟩).tracker,
        drawSamples := true } := by
  cases fires
  · rfl
  · simp [FaceTracking.new, initGui, initTracking, setTrackbarPos, samplerChanged,
      sampleCountChanged, randomRateChanged, scatterChanged, drawSamplesChanged,
      ResamplingSampler.setRandomRate, ResamplingSampler.setCount,
      SimpleTransitionModel.setScatter, CondensationTracker.new, CondensationTracker.getSampler,
      CondensationTracker.setSampler]
    rw [truncToInt_scatter, truncToInt_randomRate]
    norm_num

/-- The counter of `main` is the number of input options given. -/
theorem inputsSpecified_eq_givenInputs (o : Options) : inputsSpecified o = givenInputs o := by
  rcases o with ⟨_, _, _, filename, directory, device, kinect, _, _, _, _⟩
  cases filename <;> cases directory <;> cases device <;> cases kinect <;> rfl

/-- Past the input check `main` ends in one of two ways, decided by the output options. -/
theorem main_of_single_input (fires : Bool) (o : Options) (hhelp : o.help = false)
    (hone : givenInputs o = 1) :
    main fires (Except.ok o) =
      if o.output ≠ "" then
        if o.outputFps < 0 then MainOutcome.outputFpsUsage (createImageSource o)
        else
          MainOutcome.tracked
            (FaceTracking.new fires (createImageSource o)
              (some { outputFile := o.output, outputFps := o.outputFps }) o.config o.nonfaces)
      else
        MainOutcome.tracked (FaceTracking.new fires (createImageSource o) none o.config o.nonfaces)
    := by
  simp [main, hhelp, inputsSpecified_eq_givenInputs, hone]

/-- With exactly one input option given, `createImageSource` yields the source of that option. -/
theorem createImageSource_of_single (o : Options) (hone : givenInputs o = 1) :
    (∀ deviceId, o.device = some deviceId →
        createImageSource o = some (ImageSource.videoDevice deviceId)) ∧
    (∀ kinectId, o.kinect = some kinectId →
        createImageSource o = some (ImageSource.kinect kinectId)) ∧
    (∀ filename, o.filename = some filename →
        createImageSource o = some (ImageSource.videoFile filename)) ∧
    (∀ directory, o.directory = some directory →
        createImageSource o = some (ImageSource.directory directory)) := by
  rcases o with ⟨_, _, _, filename, directory, device, kinect, _, _, _, _⟩
  cases filename <;> cases directory <;> cases device <;> cases kinect <;>
    simp [givenInputs] at hone <;> simp [createImageSource]

/-- The image source that exists when `main` ends past the input check. -/
theorem main_imageSource_of_single (fires : Bool) (o : Options) (hhelp : o.help = false)
    (hone : givenInputs o = 1) :
    (main fires (Except.ok o)).imageSource = createImageSource o := by
  rw [main_of_single_input fires o hhelp hone]
  split_ifs <;> simp [MainOutcome.imageSource, FaceTracking.new_eq]

/-! ## The self-learning measurement model -/

/-- C1: in every state of the model `isUsingDynamicSvm()` returns true exactly when both
`selfLearningActive` and `usingDynamicSvm` are true; when self-learning is off it returns
false, whatever `usingDynamicSvm` is. -/
theorem isUsingDynamicSvm_iff (m : SelfLearningWvmSvmModel) :
    (m.isUsingDynamicSvm = true ↔ (m.selfLearningActive = true ∧ m.usingDynamicSvm = true)) ∧
    (m.selfLearningActive = false → m.isUsingDynamicSvm = false) := by
  constructor
  · simp [SelfLearningWvmSvmModel.isUsingDynamicSvm]
  · intro h
    simp [SelfLearningWvmSvmModel.isUsingDynamicSvm, h]

/-- Witness of C1: a model whose dynamic SVM flag is set but whose self-learning is off
reports the static classifier. -/
theorem isUsingDynamicSvm_iff_witness :
    (SelfLearningWvmSvmModel.mk 0 1 2 3 4 true (85 / 100) (5 / 100) false).selfLearningActive
        = false ∧
    (SelfLearningWvmSvmModel.mk 0 1 2 3 4 true (85 / 100) (5 / 100) false).isUsingDynamicSvm
        = false :=
  ⟨rfl, (isUsingDynamicSvm_iff
    (SelfLearningWvmSvmModel.mk 0 1 2 3 4 true (85 / 100) (5 / 100) false)).2 rfl⟩

/-- C2: after `setSelfLearningActive(a)` the call `isSelfLearningActive()` returns `a`;
`usingDynamicSvm` and both thresholds are unchanged, so `isUsingDynamicSvm()` is then
`a && usingDynamicSvm` with the previous `usingDynamicSvm`. -/
theorem setSelfLearningActive_spec (m : SelfLearningWvmSvmModel) (a : Bool) :
    (m.setSelfLearningActive a).isSelfLearningActive = a ∧
    (m.setSelfLearningActive a).usingDynamicSvm = m.usingDynamicSvm ∧
    (m.setSelfLearningActive a).positiveThreshold = m.positiveThreshold ∧
    (m.setSelfLearningActive a).negativeThreshold = m.negativeThreshold ∧
    (m.setSelfLearningActive a).isUsingDynamicSvm = (a && m.usingDynamicSvm) :=
  ⟨rfl, rfl, rfl, rfl, rfl⟩

/-! ## Trackbar callbacks -/

/-- C3: `samplerChanged(s)` makes the grid sampler the active one when `s = 0` and the
resampling sampler otherwise, and changes nothing else: the persisted population, the count
and random rate of the resampling sampler and the scatter of the transition model are as
before, and so is every other member of the application. -/
theorem samplerChanged_frame (t : FaceTracking) (s : Int) :
    (samplerChanged s t).tracker.getSampler
      = (if s = 0 then SamplerRef.grid else SamplerRef.resampling) ∧
    (samplerChanged s t).tracker.samples = t.tracker.samples ∧
    (samplerChanged s t).resamplingSampler.count = t.resamplingSampler.count ∧
    (samplerChanged s t).resamplingSampler.randomRate = t.resamplingSampler.randomRate ∧
    (samplerChanged s t).transitionModel.scatter = t.transitionModel.scatter ∧
    samplerChanged s t =
      { t with
        tracker :=
          { t.tracker with sampler := if s = 0 then SamplerRef.grid else SamplerRef.resampling } }
    := by
  by_cases h : s = 0 <;>
    simp [samplerChanged, h, CondensationTracker.setSampler, CondensationTracker.getSampler]

/-- C6: for every trackbar state `s` the value handed to the sampler by `randomRateChanged(s)`
is `s / 100`, and the random rate the sampler then holds is that value clamped to `[0,1]`, so
it lies in `[0,1]`. -/
theorem randomRateChanged_rate (t : FaceTracking) (s : Int) :
    randomRateChanged s t
      = { t with resamplingSampler := t.resamplingSampler.setRandomRate ((s : ℚ) / 100) } ∧
    (randomRateChanged s t).resamplingSampler.randomRate = max 0 (min 1 ((s : ℚ) / 100)) ∧
    0 ≤ (randomRateChanged s t).resamplingSampler.randomRate ∧
    (randomRateChanged s t).resamplingSampler.randomRate ≤ 1 := by
  have h : (1 / 100 : ℚ) * (s : ℚ) = (s : ℚ) / 100 := by ring
  refine ⟨?_, ?_, ?_, ?_⟩
  · simp only [randomRateChanged, h]
  · simp only [randomRateChanged, ResamplingSampler.setRandomRate, h]
  · simp only [randomRateChanged, ResamplingSampler.setRandomRate]
    exact le_max_left _ _
  · simp only [randomRateChanged, ResamplingSampler.setRandomRate]
    exact max_le (by norm_num) (min_le_left _ _)

/-! ## Construction -/

/-- C8: the configuration built by `initTracking`: the resampling sampler has count 800 (not
negative), random rate 0.35 (in `[0,1]`), minimum relative scale 0.1666 not above the maximum
relative scale 0.8; the transition model has scatter 0.2. -/
theorem initTracking_configuration (self : Members) :
    (initTracking self).resamplingSampler.count = 800 ∧
    0 ≤ (initTracking self).resamplingSampler.count ∧
    (initTracking self).resamplingSampler.randomRate = 35 / 100 ∧
    0 ≤ (initTracking self).resamplingSampler.randomRate ∧
    (initTracking self).resamplingSampler.randomRate ≤ 1 ∧
    (initTracking self).resamplingSampler.minSize = 1666 / 10000 ∧
    (initTracking self).resamplingSampler.maxSize = 8 / 10 ∧
    (initTracking self).resamplingSampler.minSize ≤ (initTracking self).resamplingSampler.maxSize ∧
    (initTracking self).transitionModel.scatter = 2 / 10 := by
  simp only [initTracking]
  norm_num

/-- C9, as the code has it: in the state reached by the constructor (`initTracking` followed
by `initGui`), whatever the window toolkit does with the callbacks, there is no prior
population and the active sampler of the tracker is the resampling sampler. -/
theorem constructed_sampler_resampling (fires : Bool) (src : Option ImageSource)
    (sink : Option VideoImageSink) (cfg neg : String) :
    (FaceTracking.new fires src sink cfg neg).tracker.samples = [] ∧
    (FaceTracking.new fires src sink cfg neg).tracker.getSampler = SamplerRef.resampling := by
  rw [FaceTracking.new_eq]
  exact ⟨rfl, rfl⟩

/-- C9 fails as stated: the application constructed for the video file `video.avi` with the
default options has no prior population, and its active sampler is not the grid sampler,
whether or not the toolkit fires the callbacks. -/
theorem constructed_sampler_not_grid :
    (FaceTracking.new true (some (ImageSource.videoFile "video.avi")) none
        "fd_config_fft_fd.mat" "nonfaces_1000").tracker.samples = [] ∧
    (FaceTracking.new true (some (ImageSource.videoFile "video.avi")) none
        "fd_config_fft_fd.mat" "nonfaces_1000").tracker.getSampler ≠ SamplerRef.grid ∧
    (FaceTracking.new false (some (ImageSource.videoFile "video.avi")) none
        "fd_config_fft_fd.mat" "nonfaces_1000").tracker.getSampler ≠ SamplerRef.grid := by
  simp only [FaceTracking.new_eq]
  exact ⟨rfl, by decide, by decide⟩

/-! ## `main` -/

/-- C4: for options that parsed without `help`, `main` returns -1 at the input check, with no
`FaceTracking` object (and no image source) constructed, if and only if the number of input
options given is not exactly one; when exactly one is given, the image source created is
the one of that option. -/
theorem main_input_check (fires : Bool) (o : Options) (hhelp : o.help = false) :
    (main fires (Except.ok o) = MainOutcome.inputUsage ↔ givenInputs o ≠ 1) ∧
    (givenInputs o ≠ 1 →
      (main fires (Except.ok o)).exitCode = -1 ∧ (main fires (Except.ok o)).app = none ∧
      (main fires (Except.ok o)).imageSource = none) ∧
    (givenInputs o = 1 →
      (∀ deviceId, o.device = some deviceId →
        (main fires (Except.ok o)).imageSource = some (ImageSource.videoDevice deviceId)) ∧
      (∀ kinectId, o.kinect = some kinectId →
        (main fires (Except.ok o)).imageSource = some (ImageSource.kinect kinectId)) ∧
      (∀ filename, o.filename = some filename →
        (main fires (Except.ok o)).imageSource = some (ImageSource.videoFile filename)) ∧
      (∀ directory, o.directory = some directory →
        (main fires (Except.ok o)).imageSource = some (ImageSource.directory directory))) := by
  by_cases hone : givenInputs o = 1
  · refine ⟨?_, fun h => absurd hone h, fun _ => ?_⟩
    · rw [main_of_single_input fires o hhelp hone]
      constructor
      · intro h
        split_ifs at h
      · intro h
        exact absurd hone h
    · rw [main_imageSource_of_single fires o hhelp hone]
      exact createImageSource_of_single o hone
  · have hmain : main fires (Except.ok o) = MainOutcome.inputUsage := by
      simp [main, hhelp, inputsSpecified_eq_givenInputs, hone]
    refine ⟨?_, fun _ => ?_, fun h => absurd h hone⟩
    · exact ⟨fun _ => hone, fun _ => hmain⟩
    · rw [hmain]
      exact ⟨rfl, rfl, rfl⟩

/-- Witness of C4: with only the video file `video.avi` given the input check is passed and
the image source is that video file; with a camera and a directory given, `main` stops at the
input check. -/
theorem main_input_check_witness :
    ({ defaultOptions with filename := some "video.avi" } : Options).help = false ∧
    (main true (Except.ok { defaultOptions with filename := some "video.avi" })).imageSource
      = some (ImageSource.videoFile "video.avi") ∧
    main true (Except.ok { defaultOptions with device := some 0, directory := some "frames" })
      = MainOutcome.inputUsage :=
  ⟨rfl,
    ((main_input_check true { defaultOptions with filename := some "video.avi" } rfl).2.2
      (by decide)).2.2.1 "video.avi" rfl,
    (main_input_check true
      { defaultOptions with device := some 0, directory := some "frames" } rfl).1.2
      (by decide)⟩

/-- C5: for options that parsed without `help` and name exactly one input: with a non-empty
output file name and a negative output frame rate, `main` returns -1 and no `FaceTracking`
object is constructed; with an empty output file name the application is constructed without
an image sink, whatever the frame rate; with a non-empty name and a frame rate of at least 0
it is constructed with an image sink for that file and frame rate. -/
theorem main_output_check (fires : Bool) (o : Options) (hhelp : o.help = false)
    (hone : givenInputs o = 1) :
    (o.output ≠ "" → o.outputFps < 0 →
      main fires (Except.ok o) = MainOutcome.outputFpsUsage (createImageSource o) ∧
      (main fires (Except.ok o)).exitCode = -1 ∧ (main fires (Except.ok o)).app = none) ∧
    (o.output = "" →
      ∃ app, main fires (Except.ok o) = MainOutcome.tracked app ∧ app.imageSink = none) ∧
    (o.output ≠ "" → 0 ≤ o.outputFps →
      ∃ app, main fires (Except.ok o) = MainOutcome.tracked app ∧
        app.imageSink = some { outputFile := o.output, outputFps := o.outputFps }) := by
  rw [main_of_single_input fires o hhelp hone]
  refine ⟨fun hout hfps => ?_, fun hout => ?_, fun hout hfps => ?_⟩
  · rw [if_pos hout, if_pos hfps]
    exact ⟨rfl, rfl, rfl⟩
  · rw [if_neg (not_not.mpr hout)]
    exact ⟨_, rfl, by rw [FaceTracking.new_eq]⟩
  · rw [if_pos hout, if_neg (not_lt.mpr hfps)]
    exact ⟨_, rfl, by rw [FaceTracking.new_eq]⟩

/-- Witness of C5: the three cases on the command lines `-f video.avi -o out.avi`,
`-f video.avi -r 25` and `-d 0 -o out.avi -r 25`. -/
theorem main_output_check_witness :
    (main true (Except.ok
      { defaultOptions with filename := some "video.avi", output := "out.avi" })).exitCode = -1 ∧
    (∃ app, main true (Except.ok
        { defaultOptions with filename := some "video.avi", outputFps := 25 })
          = MainOutcome.tracked app ∧ app.imageSink = none) ∧
    (∃ app, main true (Except.ok
        { defaultOptions with device := some 0, output := "out.avi", outputFps := 25 })
          = MainOutcome.tracked app ∧
        app.imageSink = some { outputFile := "out.avi", outputFps := 25 }) :=
  ⟨((main_output_check true
      { defaultOptions with filename := some "video.avi", output := "out.avi" } rfl
      (by decide)).1 (by decide) (by decide)).2.1,
    (main_output_check true
      { defaultOptions with filename := some "video.avi", outputFps := 25 } rfl
      (by decide)).2.1 rfl,
    (main_output_check true
      { defaultOptions with device := some 0, output := "out.avi", outputFps := 25 } rfl
      (by decide)).2.2 (by decide) (by decide)⟩

/-- C7, the code at the command line `-f video.avi -c my_config.mat`: the application is
constructed with `svmConfigFile = "my_config.mat"`, yet the file names handed to both
`loadMatlab` calls are the two paths written in `initTracking`, neither of which is the
configured name. -/
theorem main_config_not_loaded (fires : Bool) :
    ∃ app,
      main fires (Except.ok
        { defaultOptions with filename := some "video.avi", config := "my_config.mat" })
          = MainOutcome.tracked app ∧
      app.svmConfigFile = "my_config.mat" ∧
      app.measurementModel.wvm = loadMatlab svmConfigFile1 svmConfigFile2 ∧
      app.measurementModel.svm = loadMatlab svmConfigFile1 svmConfigFile2 ∧
      app.measurementModel.wvm.classifierFilename ≠ app.svmConfigFile ∧
      app.measurementModel.wvm.thresholdsFilename ≠ app.svmConfigFile ∧
      app.measurementModel.svm.classifierFilename ≠ app.svmConfigFile ∧
      app.measurementModel.svm.thresholdsFilename ≠ app.svmConfigFile := by
  refine ⟨FaceTracking.new fires (some (ImageSource.videoFile "video.avi")) none
    "my_config.mat" "nonfaces_1000", ?_, ?_⟩
  · rw [main_of_single_input fires _ rfl (by decide)]
    rfl
  · rw [FaceTracking.new_eq]
    exact ⟨rfl, rfl, rfl, by decide, by decide, by decide, by decide⟩

end FeatureDetection
